import Mathlib

/-!
Shallow embedding of the anytype-bot repository pieces under verification:

* `src/src/summarizer.py`, `DeepSeekSummarizer.combine_summaries` — the
  formatting of intermediate chunk summaries into the prompt context.
* `src/src/rag_service.py`, `RAGService.add_note` / `RAGService.search` —
  the vector-store upsert and the semantic search pipeline.  External
  effects (the sentence-transformers embedding step and the ChromaDB
  collection operations) are passed in as `Except`-valued functions, a
  raised exception being modelled as `Except.error`; the ChromaDB
  collection is modelled as a list of entries, its `query` as an exact
  ascending-distance nearest-neighbour search (the distance function
  itself stays abstract).
* `src/src/rag_service.py`, `SyncService.sync_all_notes` — the best-effort
  sync loop with its `synced`/`skipped`/`errors` counters.
-/

/-! ### combine_summaries (summarizer.py, lines 105-145)

The prompt context is
`"\n\n".join(f"[Part {s.get('chunkNumber', i+1)}]: {s.get('summary', '')}" ...)`
over `enumerate(intermediate_summaries)`. -/

/-- One element of the `intermediate_summaries` list: a dict that may carry
a `chunkNumber` and a `summary` (absent keys modelled by `none`). -/
structure ChunkSummary where
  chunkNumber : Option Nat
  summary : Option String
deriving DecidableEq, Repr

/-- `s.get('chunkNumber', i+1)`: the label printed for the chunk at
position `i` of the input list. -/
def chunkLabel (i : Nat) (s : ChunkSummary) : Nat :=
  s.chunkNumber.getD (i + 1)

/-- `f"[Part {s.get('chunkNumber', i+1)}]: {s.get('summary', '')}"`. -/
def formatPart (i : Nat) (s : ChunkSummary) : String :=
  "[Part " ++ toString (chunkLabel i s) ++ "]: " ++ s.summary.getD ""

/-- The list of formatted parts, in the order produced by
`enumerate(intermediate_summaries)`, i.e. input-list order. -/
def partsList (l : List ChunkSummary) : List String :=
  l.enum.map (fun p => formatPart p.1 p.2)

/-- `summaries_text`: the prompt context built by `combine_summaries`. -/
def summariesText (l : List ChunkSummary) : String :=
  String.intercalate "\n\n" (partsList l)

/-- The sequence of part labels, in the order they appear in the prompt
context. -/
def partLabels (l : List ChunkSummary) : List Nat :=
  l.enum.map (fun p => chunkLabel p.1 p.2)

/-! ### The vector store model (rag_service.py) -/

/-- A ChromaDB metadata value (the code only ever stores strings and the
integer `text_length`). -/
inductive MetaVal where
  | str : String → MetaVal
  | int : Nat → MetaVal
deriving DecidableEq, Repr

/-- The `metadata` dict passed by callers: keys mapped to values that may
be `None` (`none` here); `add_note` filters the `None` values out. -/
abbrev MetaIn := List (String × Option MetaVal)

/-- One live vector entry of the ChromaDB collection: id, document text,
embedding vector and stored metadata. -/
structure Entry where
  id : String
  document : String
  embeddingV : List ℚ
  meta : List (String × MetaVal)
deriving DecidableEq, Repr

/-- One search result dict as built by `RAGService.search`:
`{'id': ..., 'text': doc, 'metadata': ..., 'similarity': round(similarity, 3)}`. -/
structure Note where
  id : String
  text : String
  metadata : List (String × MetaVal)
  similarity : ℚ
deriving DecidableEq, Repr

/-- Python `str.strip()`: remove whitespace from both ends. -/
def pyStrip (s : String) : String :=
  String.mk (((s.toList.dropWhile Char.isWhitespace).reverse.dropWhile
    Char.isWhitespace).reverse)

/-- Python `round(x, 3)` (round half to even on the third decimal),
modelled over the rationals. -/
def round3 (x : ℚ) : ℚ :=
  let y := x * 1000
  let f : ℤ := y.floor
  let r : ℚ := y - f
  let n : ℤ :=
    if r < 1/2 then f
    else if 1/2 < r then f + 1
    else if f % 2 = 0 then f else f + 1
  (n : ℚ) / 1000

/-- Python dict assignment `m[k] = v`: replace the value if the key is
present, append otherwise. -/
def dictSet (m : MetaIn) (k : String) (v : Option MetaVal) : MetaIn :=
  if m.any (fun p => p.1 = k) then
    m.map (fun p => if p.1 = k then (k, v) else p)
  else m ++ [(k, v)]

/-- The metadata actually stored by `add_note` (lines 103-109):
`meta = metadata or {}`, then `meta['indexed_at'] = ...`,
`meta['text_length'] = len(text)`, then drop `None` values. -/
def processMeta (metadata : Option MetaIn) (now : String) (tlen : Nat) :
    List (String × MetaVal) :=
  let m := metadata.getD []
  let m := dictSet m "indexed_at" (some (.str now))
  let m := dictSet m "text_length" (some (.int tlen))
  m.filterMap (fun p => p.2.map (fun v => (p.1, v)))

/-- The external effects used by `add_note`: the embedding step and the
collection `delete`/`add` calls, each of which may raise
(`Except.error`). -/
structure AddEnv where
  embed : String → Except String (List ℚ)
  colDelete : List Entry → String → Except String (List Entry)
  colAdd : List Entry → Entry → Except String (List Entry)

/-- `RAGService.add_note` (lines 72-130).  Returns the new collection
state and the boolean result.  The short-text guard (line 89,
`if not text or len(text.strip()) < 20`) rejects before the `try` block;
inside the `try`, the embedding is computed, the existing id is deleted
(its own inner `try/except Exception: pass`), and the entry is added;
any exception is caught and converted to `False` (lines 128-130). -/
def add_note (env : AddEnv) (idx : List Entry) (note_id text : String)
    (metadata : Option MetaIn) (now : String) : List Entry × Bool :=
  if text = "" ∨ (pyStrip text).length < 20 then (idx, false)
  else
    match env.embed text with
    | .error _ => (idx, false)
    | .ok embedding =>
      let idx1 :=
        match env.colDelete idx note_id with
        | .ok i => i
        | .error _ => idx
      match env.colAdd idx1 ⟨note_id, text, embedding, processMeta metadata now text.length⟩ with
      | .error _ => (idx1, false)
      | .ok idx2 => (idx2, true)

/-- ChromaDB `collection.delete(ids=[note_id])`: removes every entry with
that id; in the non-raising model it always succeeds. -/
def chromaDelete (idx : List Entry) (note_id : String) : Except String (List Entry) :=
  .ok (idx.filter (fun e => !(e.id == note_id)))

/-- ChromaDB `collection.add(...)` in the non-raising model: appends the
entry. -/
def chromaAdd (idx : List Entry) (e : Entry) : Except String (List Entry) :=
  .ok (idx ++ [e])

/-- The environment in which neither the embedder nor the collection
raises; `emf` is the embedding model. -/
def pureEnv (emf : String → List ℚ) : AddEnv :=
  ⟨fun t => .ok (emf t), chromaDelete, chromaAdd⟩

/-! ### search (rag_service.py, lines 132-195) -/

/-- Ascending-distance order on entries for a fixed query embedding `qe`
and distance function `ds`. -/
def distRel (ds : List ℚ → List ℚ → ℚ) (qe : List ℚ) (a b : Entry) : Prop :=
  ds qe a.embeddingV ≤ ds qe b.embeddingV

instance (ds : List ℚ → List ℚ → ℚ) (qe : List ℚ) : DecidableRel (distRel ds qe) :=
  fun a b => inferInstanceAs (Decidable (_ ≤ _))

instance (ds : List ℚ → List ℚ → ℚ) (qe : List ℚ) : IsTotal Entry (distRel ds qe) :=
  ⟨fun a b => le_total _ _⟩

instance (ds : List ℚ → List ℚ → ℚ) (qe : List ℚ) : IsTrans Entry (distRel ds qe) :=
  ⟨fun _ _ _ h1 h2 => le_trans h1 h2⟩

/-- ChromaDB `collection.query(...)`: the `k` nearest entries to the query
embedding in ascending-distance order, each paired with its distance. -/
def realQuery (ds : List ℚ → List ℚ → ℚ) (idx : List Entry) (qe : List ℚ)
    (k : Nat) : List (Entry × ℚ) :=
  ((List.insertionSort (distRel ds qe) idx).take k).map
    (fun e => (e, ds qe e.embeddingV))

/-- The result-processing loop of `search` (lines 174-188): for each
candidate, `similarity = 1 - distance`; `continue` when
`similarity < min_similarity`; otherwise append the dict with
`round(similarity, 3)`. -/
def processResults (cands : List (Entry × ℚ)) (m : ℚ) : List Note :=
  (cands.filter (fun p => !(decide (1 - p.2 < m)))).map
    (fun p => ⟨p.1.id, p.1.document, p.1.meta, round3 (1 - p.2)⟩)

/-- The external effects used by `search`: the query-embedding step and
the collection `query` call, each of which may raise. -/
structure SearchEnv where
  embed : String → Except String (List ℚ)
  colQuery : List Entry → List ℚ → Nat → Except String (List (Entry × ℚ))

/-- `RAGService.search` (lines 132-195).  The short-query guard
(line 149) returns `[]` before the `try`; inside the `try`, the query is
embedded, an empty collection returns `[]` (line 162), the collection is
queried with `n_results = min(n_results, collection.count())`, and the
results are filtered and converted; any exception yields `[]`
(lines 193-195). -/
def search (env : SearchEnv) (idx : List Entry) (query : String)
    (n : Nat) (m : ℚ) : List Note :=
  if query = "" ∨ (pyStrip query).length < 3 then []
  else
    match env.embed query with
    | .error _ => []
    | .ok qemb =>
      if idx.length = 0 then []
      else
        match env.colQuery idx qemb (min n idx.length) with
        | .error _ => []
        | .ok results => processResults results m

/-- The environment in which neither the embedder nor the collection
raises and the collection query is the exact nearest-neighbour search. -/
def realSearchEnv (ds : List ℚ → List ℚ → ℚ) (emf : String → List ℚ) : SearchEnv :=
  ⟨fun t => .ok (emf t), fun idx qe k => .ok (realQuery ds idx qe k)⟩

/-- The candidate/distance pairs that survive the `min_similarity` filter
in `search` under `realSearchEnv` (empty under the same guards as
`search`).  `search` under `realSearchEnv` is exactly the image of this
list under the result-dict constructor. -/
def searchKept (ds : List ℚ → List ℚ → ℚ) (emf : String → List ℚ)
    (idx : List Entry) (query : String) (n : Nat) (m : ℚ) : List (Entry × ℚ) :=
  if query = "" ∨ (pyStrip query).length < 3 then []
  else if idx.length = 0 then []
  else
    (realQuery ds idx (emf query) (min n idx.length)).filter
      (fun p => !(decide (1 - p.2 < m)))

/-- The result dict built from a surviving candidate/distance pair. -/
def toNote (p : Entry × ℚ) : Note :=
  ⟨p.1.id, p.1.document, p.1.meta, round3 (1 - p.2)⟩

/-! ### sync_all_notes (rag_service.py, lines 250-320) -/

/-- One object stub returned by the Anytype object-search listing:
`obj.get("id")`, `obj.get("name", "")`, `obj.get("created_date", '')`. -/
structure ObjStub where
  id : String
  name : String
  created_date : Option String
deriving DecidableEq, Repr

/-- The `stats` dict of `sync_all_notes`. -/
structure SyncStats where
  synced : Nat
  skipped : Nat
  errors : Nat
deriving DecidableEq, Repr

/-- The external effects used by `sync_all_notes`: the single `add_note`
environment, the timestamp, the per-object fetch
(`self.anytype.get_object(obj_id)`, returning the body with
`.get("body", "")` applied; may raise) and the initial listing request
(may raise). -/
structure SyncEnv where
  addEnv : AddEnv
  now : String
  getObject : String → Except String String
  listObjects : Except String (List ObjStub)

/-- `full_text = f"{name}\n\n{body}" if body else name` (line 287). -/
def fullText (name body : String) : String :=
  if body = "" then name else name ++ "\n\n" ++ body

/-- The metadata dict passed to `add_note` by the sync loop
(lines 297-302). -/
def syncMeta (obj : ObjStub) : MetaIn :=
  [("title", some (.str obj.name)), ("source", some (.str "anytype")),
   ("anytype_id", some (.str obj.id)),
   ("created", some (.str (obj.created_date.getD "")))]

/-- One iteration of the per-note loop of `sync_all_notes`
(lines 277-312): fetch the full object (a raised exception increments
`errors` and moves on), skip short texts (`skipped`), index via
`add_note` (`synced` on `True`, `skipped` on `False`). -/
def syncStep (env : SyncEnv) (st : List Entry × SyncStats) (obj : ObjStub) :
    List Entry × SyncStats :=
  match env.getObject obj.id with
  | .error _ => (st.1, ⟨st.2.synced, st.2.skipped, st.2.errors + 1⟩)
  | .ok body =>
    let ft := fullText obj.name body
    if ft.length < 20 then (st.1, ⟨st.2.synced, st.2.skipped + 1, st.2.errors⟩)
    else
      let r := add_note env.addEnv st.1 obj.id ft (some (syncMeta obj)) env.now
      if r.2 then (r.1, ⟨st.2.synced + 1, st.2.skipped, st.2.errors⟩)
      else (r.1, ⟨st.2.synced, st.2.skipped + 1, st.2.errors⟩)

/-- `SyncService.sync_all_notes` (lines 250-320): list the note objects
(a failure of the listing itself increments `errors` once and returns),
then fold the per-note loop over them starting from
`{'synced': 0, 'skipped': 0, 'errors': 0}`. -/
def sync_all_notes (env : SyncEnv) (idx : List Entry) : List Entry × SyncStats :=
  match env.listObjects with
  | .error _ => (idx, ⟨0, 0, 1⟩)
  | .ok objs => objs.foldl (syncStep env) (idx, ⟨0, 0, 0⟩)

/-- True when the per-object fetch raises for this object. -/
def isFetchErr (env : SyncEnv) (o : ObjStub) : Bool :=
  match env.getObject o.id with
  | .error _ => true
  | .ok _ => false

/-- The distance function, query embedding and single entry used for the
concrete search instances. -/
def exDs : List ℚ → List ℚ → ℚ := fun _ _ => 6996/10000

/-- The embedding model used for the concrete search instances. -/
def exEmf : String → List ℚ := fun _ => [1]

/-- The single indexed entry used for the concrete search instances. -/
def exEntry : Entry := ⟨"n1", "doc", [1], []⟩

/-- A sync environment whose object listing holds two notes and whose
per-object fetch raises exactly on the first one. -/
def envC6 : SyncEnv :=
  ⟨pureEnv (fun _ => [1]), "t0",
   fun s => if s = "o1" then .error "network down"
            else .ok "this body is long enough for sure",
   .ok [⟨"o1", "A", none⟩, ⟨"o2", "Title", none⟩]⟩

/-- A sync environment whose collection `add` always raises, so that
`add_note` catches the error and returns `False` for every note. -/
def envC10 : SyncEnv :=
  ⟨⟨fun _ => .ok [1], chromaDelete, fun _ _ => .error "chroma add failed"⟩,
   "t0", fun _ => .ok "this body is long enough for sure",
   .ok [⟨"o1", "Title", none⟩]⟩

/-! ### Helper lemmas -/

theorem search_real_eq (ds : List ℚ → List ℚ → ℚ) (emf : String → List ℚ)
    (idx : List Entry) (qs : String) (n : Nat) (m : ℚ) :
    search (realSearchEnv ds emf) idx qs n m
      = (searchKept ds emf idx qs n m).map toNote := by
  by_cases h1 : qs = "" ∨ (pyStrip qs).length < 3
  · simp [search, searchKept, h1]
  · by_cases h2 : idx.length = 0
    · simp [search, searchKept, realSearchEnv, h1, h2]
    · simp [search, searchKept, realSearchEnv, h1, h2, processResults, toNote]

theorem searchKept_min_similarity (ds : List ℚ → List ℚ → ℚ)
    (emf : String → List ℚ) (idx : List Entry) (qs : String) (n : Nat) (m : ℚ) :
    ∀ p ∈ searchKept ds emf idx qs n m, m ≤ 1 - p.2 := by
  intro p hp
  unfold searchKept at hp
  split at hp
  · exact absurd hp (List.not_mem_nil p)
  · split at hp
    · exact absurd hp (List.not_mem_nil p)
    · have hkeep := List.of_mem_filter hp
      simp only [Bool.not_eq_true', decide_eq_false_iff_not, not_lt] at hkeep
      exact hkeep

theorem searchKept_length_le (ds : List ℚ → List ℚ → ℚ)
    (emf : String → List ℚ) (idx : List Entry) (qs : String) (n : Nat) (m : ℚ) :
    (searchKept ds emf idx qs n m).length ≤ min n idx.length := by
  unfold searchKept
  split
  · simp
  · split
    · simp
    · have h1 : (realQuery ds idx (emf qs) (min n idx.length)).length
          ≤ min n idx.length := by
        unfold realQuery
        rw [List.length_map, List.length_take]
        exact min_le_left _ _
      exact le_trans (List.length_filter_le _ _) h1

theorem searchKept_pairwise (ds : List ℚ → List ℚ → ℚ)
    (emf : String → List ℚ) (idx : List Entry) (qs : String) (n : Nat) (m : ℚ) :
    (searchKept ds emf idx qs n m).Pairwise (fun a b => a.2 ≤ b.2) := by
  unfold searchKept
  split
  · exact List.Pairwise.nil
  · split
    · exact List.Pairwise.nil
    · apply List.Pairwise.sublist (List.filter_sublist _)
      unfold realQuery
      rw [List.pairwise_map]
      apply List.Pairwise.sublist (List.take_sublist _ _)
      exact List.sorted_insertionSort (distRel ds (emf qs)) idx

theorem searchKept_antitone (ds : List ℚ → List ℚ → ℚ)
    (emf : String → List ℚ) (idx : List Entry) (qs : String) (n : Nat)
    {m1 m2 : ℚ} (h : m1 ≤ m2) :
    List.Sublist (searchKept ds emf idx qs n m2) (searchKept ds emf idx qs n m1) := by
  unfold searchKept
  split
  · exact List.Sublist.refl _
  · split
    · exact List.Sublist.refl _
    · apply List.monotone_filter_right
      intro p hp
      simp only [Bool.not_eq_true', decide_eq_false_iff_not, not_lt] at hp ⊢
      exact le_trans h hp

theorem add_note_pure_valid (emf : String → List ℚ) (idx : List Entry)
    (i t : String) (mm : Option MetaIn) (now : String)
    (h : ¬(t = "" ∨ (pyStrip t).length < 20)) :
    add_note (pureEnv emf) idx i t mm now
      = (idx.filter (fun e => !(e.id == i))
          ++ [⟨i, t, emf t, processMeta mm now t.length⟩], true) := by
  unfold add_note pureEnv chromaDelete chromaAdd
  rw [if_neg h]

theorem syncStep_errors_eq (env : SyncEnv) (st : List Entry × SyncStats)
    (obj : ObjStub) :
    (syncStep env st obj).2.errors
      = st.2.errors + (if isFetchErr env obj then 1 else 0) := by
  unfold syncStep isFetchErr
  cases h : env.getObject obj.id with
  | error e => simp
  | ok body =>
    simp only
    split
    · simp
    · split
      · simp
      · simp

theorem syncStep_count_eq (env : SyncEnv) (st : List Entry × SyncStats)
    (obj : ObjStub) :
    (syncStep env st obj).2.synced + (syncStep env st obj).2.skipped
        + (syncStep env st obj).2.errors
      = st.2.synced + st.2.skipped + st.2.errors + 1 := by
  unfold syncStep
  cases h : env.getObject obj.id with
  | error e => dsimp only; omega
  | ok body =>
    simp only
    split
    · dsimp only; omega
    · split
      · dsimp only; omega
      · dsimp only; omega

theorem sync_fold_errors (env : SyncEnv) :
    ∀ (objs : List ObjStub) (st : List Entry × SyncStats),
      (objs.foldl (syncStep env) st).2.errors
        = st.2.errors + objs.countP (isFetchErr env) := by
  intro objs
  induction objs with
  | nil => intro st; simp
  | cons o os ih =>
    intro st
    rw [List.foldl_cons, ih (syncStep env st o), syncStep_errors_eq,
      List.countP_cons]
    split
    · simp only [List.countP, if_pos ‹_›]
      omega
    · simp only [List.countP, if_neg ‹_›]
      omega

theorem sync_fold_count (env : SyncEnv) :
    ∀ (objs : List ObjStub) (st : List Entry × SyncStats),
      (objs.foldl (syncStep env) st).2.synced
          + (objs.foldl (syncStep env) st).2.skipped
          + (objs.foldl (syncStep env) st).2.errors
        = st.2.synced + st.2.skipped + st.2.errors + objs.length := by
  intro objs
  induction objs with
  | nil => intro st; simp
  | cons o os ih =>
    intro st
    rw [List.foldl_cons, ih (syncStep env st o)]
    have := syncStep_count_eq env st o
    simp only [List.length_cons]
    omega

/-! ### Claim theorems -/

/-- Claim C1 (amended): `combine_summaries` formats the prompt context
with the parts in input-list order, not sorted by `chunkNumber`: the
part at position `i` of the context is exactly the formatting of the
input chunk at position `i`, labeled with that chunk's `chunkNumber`
(defaulting to `i + 1` when absent).  Ascending `chunkNumber` order is
obtained only when the input list is already so ordered. -/
theorem c1_parts_in_input_order (l : List ChunkSummary) (i : Nat) :
    (partsList l)[i]? = (l[i]?).map (formatPart i) := by
  unfold partsList
  rw [List.getElem?_map, List.getElem?_enum]
  cases l[i]? with
  | none => rfl
  | some s => rfl

/-- Claim C1, counterexample to the claim as stated: on the input
`[{2, "B"}, {1, "A"}]` the prompt context lists part 2 before part 1
(it is not the ascending-`chunkNumber` formatting). -/
theorem c1_order_counterexample :
    summariesText [⟨some 2, some "B"⟩, ⟨some 1, some "A"⟩]
        = "[Part 2]: B\n\n[Part 1]: A"
    ∧ summariesText [⟨some 2, some "B"⟩, ⟨some 1, some "A"⟩]
        ≠ "[Part 1]: A\n\n[Part 2]: B"
    ∧ partLabels [⟨some 2, some "B"⟩, ⟨some 1, some "A"⟩] = [2, 1] := by
  refine ⟨by decide, by decide, by decide⟩

/-- Claim C4: `add_note` with a text whose stripped length is below 20
characters (the empty text included) returns `False` and leaves the
collection unchanged. -/
theorem c4_short_text_rejected (env : AddEnv) (idx : List Entry)
    (note_id text : String) (metadata : Option MetaIn) (now : String)
    (h : (pyStrip text).length < 20) :
    add_note env idx note_id text metadata now = (idx, false) := by
  unfold add_note
  rw [if_pos (Or.inr h)]

/-- Claim C4, witness: a concrete short text is rejected with the
collection untouched. -/
theorem c4_short_text_rejected_witness :
    (pyStrip "short").length < 20
    ∧ add_note (pureEnv (fun _ => [1])) [] "n" "short" none "t" = ([], false) :=
  ⟨by decide, c4_short_text_rejected _ _ _ _ _ _ (by decide)⟩

/-- Claim C5: an exception raised by the embedding step or by the index
step inside `add_note` or `search` is caught and converted into the
failure value: `add_note` returns `False` and `search` returns the empty
list; neither operation propagates the exception. -/
theorem c5_errors_contained
    (del : List Entry → String → Except String (List Entry))
    (addF : List Entry → Entry → Except String (List Entry))
    (qryF : List Entry → List ℚ → Nat → Except String (List (Entry × ℚ)))
    (emf : String → List ℚ) (err : String) (idx : List Entry)
    (note_id text : String) (metadata : Option MetaIn) (now : String)
    (qs : String) (n : Nat) (m : ℚ) :
    (add_note ⟨fun _ => .error err, del, addF⟩ idx note_id text metadata now).2 = false
    ∧ (add_note ⟨fun t => .ok (emf t), del, fun _ _ => .error err⟩
        idx note_id text metadata now).2 = false
    ∧ search ⟨fun _ => .error err, qryF⟩ idx qs n m = []
    ∧ search ⟨fun t => .ok (emf t), fun _ _ _ => .error err⟩ idx qs n m = [] := by
  refine ⟨?_, ?_, ?_, ?_⟩
  · unfold add_note
    split
    · rfl
    · rfl
  · unfold add_note
    split
    · rfl
    · cases h : del idx note_id <;> simp [h]
  · unfold search
    split
    · rfl
    · rfl
  · unfold search
    split
    · rfl
    · split
      · rfl
      · split
        · rfl
        · rfl

/-- Claim C8: `search` on an empty collection returns the empty list
(never an error), whatever the query, result limit, threshold and
environment. -/
theorem c8_empty_index (env : SearchEnv) (qs : String) (n : Nat) (m : ℚ) :
    search env [] qs n m = [] := by
  unfold search
  split
  · rfl
  · cases h : env.embed qs <;> simp

/-- Claim C2: under the real (non-raising) environment, `search` returns
exactly the image of the surviving candidate/distance pairs; every
surviving pair has unrounded similarity `1 - distance` at least
`min_similarity`; the result has at most `n_results` and at most
corpus-size elements; and the surviving pairs keep ascending-distance
order. -/
theorem c2_search_filter_bound_order (ds : List ℚ → List ℚ → ℚ)
    (emf : String → List ℚ) (idx : List Entry) (qs : String) (n : Nat) (m : ℚ) :
    search (realSearchEnv ds emf) idx qs n m
        = (searchKept ds emf idx qs n m).map toNote
    ∧ (∀ p ∈ searchKept ds emf idx qs n m, m ≤ 1 - p.2)
    ∧ (search (realSearchEnv ds emf) idx qs n m).length ≤ n
    ∧ (search (realSearchEnv ds emf) idx qs n m).length ≤ idx.length
    ∧ (searchKept ds emf idx qs n m).Pairwise (fun a b => a.2 ≤ b.2) := by
  have hlen : (search (realSearchEnv ds emf) idx qs n m).length
      ≤ min n idx.length := by
    rw [search_real_eq, List.length_map]
    exact searchKept_length_le ds emf idx qs n m
  exact ⟨search_real_eq ds emf idx qs n m,
    searchKept_min_similarity ds emf idx qs n m,
    le_trans hlen (min_le_left _ _),
    le_trans hlen (min_le_right _ _),
    searchKept_pairwise ds emf idx qs n m⟩

/-- Claim C2, witness: the theorem applied at a concrete query over a
concrete one-entry corpus. -/
theorem c2_search_filter_bound_order_witness :
    search (realSearchEnv exDs exEmf) [exEntry] "abc" 5 0
        = (searchKept exDs exEmf [exEntry] "abc" 5 0).map toNote
    ∧ (search (realSearchEnv exDs exEmf) [exEntry] "abc" 5 0).length ≤ 5 :=
  ⟨(c2_search_filter_bound_order exDs exEmf [exEntry] "abc" 5 0).1,
   (c2_search_filter_bound_order exDs exEmf [exEntry] "abc" 5 0).2.2.1⟩

/-- Claim C7: for a fixed query, corpus and result limit, the number of
`search` results is antitone in the `min_similarity` threshold. -/
theorem c7_count_antitone (ds : List ℚ → List ℚ → ℚ) (emf : String → List ℚ)
    (idx : List Entry) (qs : String) (n : Nat) (m1 m2 : ℚ) (h : m1 ≤ m2) :
    (search (realSearchEnv ds emf) idx qs n m2).length
      ≤ (search (realSearchEnv ds emf) idx qs n m1).length := by
  rw [search_real_eq, search_real_eq, List.length_map, List.length_map]
  exact (searchKept_antitone ds emf idx qs n h).length_le

/-- Claim C7, witness: raising the threshold from 0 to 1 on a concrete
corpus does not increase the result count. -/
theorem c7_count_antitone_witness :
    (search (realSearchEnv exDs exEmf) [exEntry] "abc" 5 1).length
      ≤ (search (realSearchEnv exDs exEmf) [exEntry] "abc" 5 0).length :=
  c7_count_antitone exDs exEmf [exEntry] "abc" 5 0 1 (by norm_num)

theorem round3_3004 : round3 ((3004:ℚ)/10000) = 3/10 := by
  have hf : ((3004:ℚ)/10000 * 1000).floor = 300 := by
    rw [Rat.floor_def']
    norm_num
  simp only [round3, hf]
  norm_num

theorem searchKept_c9_example :
    searchKept exDs exEmf [exEntry] "abc" 5 (3004/10000)
      = [(exEntry, 6996/10000)] := by
  unfold searchKept realQuery
  rw [if_neg (by decide), if_neg (by decide)]
  have hnot : ¬ ((1:ℚ) - 6996/10000 < 3004/10000) := by norm_num
  simp [List.insertionSort, List.orderedInsert, exDs, hnot]

/-- Claim C9: the `similarity` field of every returned result is
`round(1 - distance, 3)` while the `min_similarity` filter is applied to
the unrounded `1 - distance`; consequently, for distance `0.6996`
(unrounded similarity `0.3004`) and threshold `0.3004`, the search
returns a result whose reported similarity `0.3` is strictly below the
threshold. -/
theorem c9_reported_below_threshold :
    (∀ (ds : List ℚ → List ℚ → ℚ) (emf : String → List ℚ)
        (idx : List Entry) (qs : String) (n : Nat) (m : ℚ),
      search (realSearchEnv ds emf) idx qs n m
        = (searchKept ds emf idx qs n m).map
            (fun p => ⟨p.1.id, p.1.document, p.1.meta, round3 (1 - p.2)⟩)
      ∧ ∀ p ∈ searchKept ds emf idx qs n m, m ≤ 1 - p.2)
    ∧ search (realSearchEnv exDs exEmf) [exEntry] "abc" 5 (3004/10000)
        = [⟨"n1", "doc", [], 3/10⟩]
    ∧ (3:ℚ)/10 < 3004/10000 := by
  refine ⟨fun ds emf idx qs n m =>
      ⟨search_real_eq ds emf idx qs n m,
       searchKept_min_similarity ds emf idx qs n m⟩, ?_, by norm_num⟩
  rw [search_real_eq, searchKept_c9_example]
  have h1 : (1:ℚ) - 6996/10000 = 3004/10000 := by norm_num
  simp [toNote, exEntry, h1, round3_3004]

/-- Claim C9, witness: the concrete instance extracted from the
theorem. -/
theorem c9_reported_below_threshold_witness :
    search (realSearchEnv exDs exEmf) [exEntry] "abc" 5 (3004/10000)
        = [⟨"n1", "doc", [], 3/10⟩]
    ∧ (3:ℚ)/10 < 3004/10000 :=
  c9_reported_below_threshold.2

/-- Claim C3 (amended): when both texts pass the minimum-length check
(and the embedding and collection steps succeed), re-adding a note under
the same id leaves exactly one entry for that id, holding the second
text, and the collection count is unchanged across the second call.
When a call is rejected, the collection is left as it was, so the
surviving entry can still hold the first text (see the
counterexample). -/
theorem c3_upsert_replaces (emf : String → List ℚ) (idx : List Entry)
    (i tA tB : String) (mA mB : Option MetaIn) (n1 n2 : String)
    (hA : ¬(tA = "" ∨ (pyStrip tA).length < 20))
    (hB : ¬(tB = "" ∨ (pyStrip tB).length < 20)) :
    ((add_note (pureEnv emf) (add_note (pureEnv emf) idx i tA mA n1).1 i tB mB n2).1.filter
        (fun e => e.id == i)).map Entry.document = [tB]
    ∧ (add_note (pureEnv emf) (add_note (pureEnv emf) idx i tA mA n1).1 i tB mB n2).1.length
        = (add_note (pureEnv emf) idx i tA mA n1).1.length
    ∧ (add_note (pureEnv emf) (add_note (pureEnv emf) idx i tA mA n1).1 i tB mB n2).2 = true := by
  rw [add_note_pure_valid emf idx i tA mA n1 hA]
  simp only
  rw [add_note_pure_valid emf _ i tB mB n2 hB]
  simp only
  have hff : ((idx.filter (fun e => !(e.id == i))
      ++ [(⟨i, tA, emf tA, processMeta mA n1 tA.length⟩ : Entry)]).filter
        (fun e => !(e.id == i)))
      = idx.filter (fun e => !(e.id == i)) := by
    rw [List.filter_append, List.filter_filter]
    simp
  rw [hff]
  refine ⟨?_, by simp, by trivial⟩
  rw [List.filter_append, List.filter_filter]
  simp

/-- Claim C3, witness: the amended theorem applied at two concrete valid
texts. -/
theorem c3_upsert_replaces_witness :
    ((add_note (pureEnv (fun _ => [1]))
        (add_note (pureEnv (fun _ => [1])) [] "n" "the first note body text" none "t1").1
        "n" "the second note body text" none "t2").1.filter
        (fun e => e.id == "n")).map Entry.document = ["the second note body text"]
    ∧ (add_note (pureEnv (fun _ => [1]))
        (add_note (pureEnv (fun _ => [1])) [] "n" "the first note body text" none "t1").1
        "n" "the second note body text" none "t2").1.length
      = (add_note (pureEnv (fun _ => [1])) [] "n" "the first note body text" none "t1").1.length :=
  ⟨(c3_upsert_replaces (fun _ => [1]) [] "n" "the first note body text"
      "the second note body text" none none "t1" "t2" (by decide) (by decide)).1,
   (c3_upsert_replaces (fun _ => [1]) [] "n" "the first note body text"
      "the second note body text" none none "t1" "t2" (by decide) (by decide)).2.1⟩

/-- Claim C3, counterexample to the claim as stated (for any two
texts/metadata): when the second text is below the length threshold the
second call is rejected, so the surviving entry still holds the first
text; and when the first text is below the threshold the count does
change across the second call (0 to 1). -/
theorem c3_any_two_texts_counterexample :
    ((add_note (pureEnv (fun _ => [1]))
        (add_note (pureEnv (fun _ => [1])) [] "n" "this text is long enough ok" none "t1").1
        "n" "short" none "t2").1.map Entry.document = ["this text is long enough ok"])
    ∧ "this text is long enough ok" ≠ "short"
    ∧ (add_note (pureEnv (fun _ => [1])) [] "n" "x" none "t1").1.length = 0
    ∧ (add_note (pureEnv (fun _ => [1]))
        (add_note (pureEnv (fun _ => [1])) [] "n" "x" none "t1").1
        "n" "this text is long enough ok" none "t2").1.length = 1 :=
  ⟨rfl, by decide, rfl, rfl⟩

/-- Claim C6: sync is best-effort.  With a successful listing, `errors`
counts exactly the listed notes whose fetch raised, and every listed
note is accounted for (`synced + skipped + errors` equals the number of
listed notes, so no failure aborts the loop).  Moreover a per-note fetch
exception increments `errors` and leaves the collection unchanged, and a
fetched note whose combined title+body text is shorter than 20
characters increments `skipped` without being indexed. -/
theorem c6_sync_best_effort (env : SyncEnv) (idx : List Entry)
    (objs : List ObjStub) (h : env.listObjects = .ok objs) :
    (sync_all_notes env idx).2.errors = objs.countP (isFetchErr env)
    ∧ (sync_all_notes env idx).2.synced + (sync_all_notes env idx).2.skipped
        + (sync_all_notes env idx).2.errors = objs.length
    ∧ (∀ (st : List Entry × SyncStats) (obj : ObjStub) (e : String),
        env.getObject obj.id = .error e →
        syncStep env st obj = (st.1, ⟨st.2.synced, st.2.skipped, st.2.errors + 1⟩))
    ∧ (∀ (st : List Entry × SyncStats) (obj : ObjStub) (body : String),
        env.getObject obj.id = .ok body →
        (fullText obj.name body).length < 20 →
        syncStep env st obj = (st.1, ⟨st.2.synced, st.2.skipped + 1, st.2.errors⟩)) := by
  have hs : sync_all_notes env idx = objs.foldl (syncStep env) (idx, ⟨0, 0, 0⟩) := by
    unfold sync_all_notes
    rw [h]
  refine ⟨?_, ?_, ?_, ?_⟩
  · rw [hs, sync_fold_errors]
    simp
  · rw [hs]
    have := sync_fold_count env objs (idx, ⟨0, 0, 0⟩)
    simpa using this
  · intro st obj e he
    unfold syncStep
    rw [he]
  · intro st obj body hb hshort
    unfold syncStep
    rw [hb]
    simp only
    rw [if_pos hshort]

/-- Claim C6, witness: the theorem applied to a concrete two-note
listing whose first fetch raises. -/
theorem c6_sync_best_effort_witness :
    (sync_all_notes envC6 []).2.errors
        = ([⟨"o1", "A", none⟩, ⟨"o2", "Title", none⟩] : List ObjStub).countP (isFetchErr envC6)
    ∧ (sync_all_notes envC6 []).2.synced + (sync_all_notes envC6 []).2.skipped
        + (sync_all_notes envC6 []).2.errors
      = ([⟨"o1", "A", none⟩, ⟨"o2", "Title", none⟩] : List ObjStub).length :=
  ⟨(c6_sync_best_effort envC6 [] [⟨"o1", "A", none⟩, ⟨"o2", "Title", none⟩] rfl).1,
   (c6_sync_best_effort envC6 [] [⟨"o1", "A", none⟩, ⟨"o2", "Title", none⟩] rfl).2.1⟩

/-- Claim C10: a listed note for which `add_note` returns `False` (for
example because an embedding or collection error was caught inside
`add_note`) increments `skipped`, not `errors`; `errors` counts only
exceptions raised directly in the per-note loop, so a run in which a
note failed to index can report `errors = 0` (the concrete run has one
note, a failing collection `add`, and ends with
`synced 0, skipped 1, errors 0`). -/
theorem c10_addnote_false_is_skipped (env : SyncEnv)
    (st : List Entry × SyncStats) (obj : ObjStub) (body : String)
    (hb : env.getObject obj.id = .ok body)
    (hlen : ¬ (fullText obj.name body).length < 20)
    (hfail : (add_note env.addEnv st.1 obj.id (fullText obj.name body)
        (some (syncMeta obj)) env.now).2 = false) :
    syncStep env st obj
      = ((add_note env.addEnv st.1 obj.id (fullText obj.name body)
          (some (syncMeta obj)) env.now).1,
         ⟨st.2.synced, st.2.skipped + 1, st.2.errors⟩)
    ∧ (sync_all_notes envC10 []).2 = ⟨0, 1, 0⟩ := by
  constructor
  · unfold syncStep
    rw [hb]
    simp only
    rw [if_neg hlen, hfail]
    simp
  · rfl

/-- Claim C10, witness: the theorem applied to the concrete one-note run
with a failing collection `add`. -/
theorem c10_addnote_false_is_skipped_witness :
    syncStep envC10 ([], ⟨0, 0, 0⟩) ⟨"o1", "Title", none⟩
      = ((add_note envC10.addEnv [] "o1"
           (fullText "Title" "this body is long enough for sure")
           (some (syncMeta ⟨"o1", "Title", none⟩)) envC10.now).1,
         ⟨0, 1, 0⟩)
    ∧ (sync_all_notes envC10 []).2 = ⟨0, 1, 0⟩ :=
  c10_addnote_false_is_skipped envC10 ([], ⟨0, 0, 0⟩) ⟨"o1", "Title", none⟩
    "this body is long enough for sure" rfl (by decide) rfl
